import Mathlib

/-!
Shallow embedding of the Trellis MCP server's HTTP client
(`src/trellis_mcp/trellis_client.py`) and of the tool wrappers
(`src/trellis_mcp/server.py`).

The client holds three configuration strings read from the environment,
builds requests against a fixed base URL with three default headers, and
classifies failures (HTTP status error, timeout, other request failure).
The network is modelled as an oracle `HttpRequest → HttpOutcome`; the
request primitive records the list of HTTP calls it issues together with
the value it returns or the error it raises (`Except`).
-/

/-- JSON values, used for request parameters, request bodies and response
bodies.  Payload shapes are opaque to the client, which passes them
through verbatim. -/
inductive Json where
  | null : Json
  | bool (b : Bool) : Json
  | num (n : Int) : Json
  | str (s : String) : Json
  | arr (xs : List Json) : Json
  | obj (kvs : List (String × Json)) : Json

/-- First-match lookup in an association list of string pairs (the value a
Python dict read would produce, given that dict keys are unique). -/
def getVal (d : List (String × String)) (k : String) : Option String :=
  match d with
  | [] => none
  | (k', v) :: rest => if k' = k then some v else getVal rest k

/-- Last-match lookup: the value that survives when the list is poured
into a dict left to right (later bindings overwrite earlier ones). -/
def getValLast (d : List (String × String)) (k : String) : Option String :=
  match d with
  | [] => none
  | (k', v) :: rest =>
    match getValLast rest k with
    | some v' => some v'
    | none => if k' = k then some v else none

/-- Key membership, as Python's `k in d`. -/
def hasKey (d : List (String × String)) (k : String) : Bool :=
  (getVal d k).isSome

/-- Set one key, replacing the binding when the key is present and
appending it otherwise — one step of Python's `dict.update`. -/
def setKey (d : List (String × String)) (k v : String) : List (String × String) :=
  match d with
  | [] => [(k, v)]
  | (k', v') :: rest => if k' = k then (k', v) :: rest else (k', v') :: setKey rest k v

/-- Python's `d.update(e)`: fold every binding of `e` into `d` in order. -/
def dictUpdate (d : List (String × String)) (e : List (String × String)) :
    List (String × String) :=
  match e with
  | [] => d
  | (k, v) :: rest => dictUpdate (setKey d k v) rest

/-- The environment visible to `os.getenv` after `load_dotenv()`:
each of the three variables the client reads is either set to a string
or absent. -/
structure Env where
  TRELLIS_API_KEY : Option String
  TRELLIS_WORKFLOW_ID : Option String
  TRELLIS_PROJECT_ID : Option String

/-- Python truthiness of an `os.getenv` result: `None` and the empty
string are falsy, every other string is truthy. -/
def truthy : Option String → Bool
  | none => false
  | some s => !(s == "")

/-- Client state after a successful `TrellisClient.__init__`: the three
configuration strings, immutable thereafter. -/
structure TrellisClient where
  api_key : String
  workflow_id : String
  project_id : String

/-- The `API_VERSION` class constant of `TrellisClient`. -/
def TrellisClient.API_VERSION : String := "2025-03"

/-- The `BASE_URL` class constant of `TrellisClient`. -/
def TrellisClient.BASE_URL : String := "https://enterprise.training.api.runtrellis.com/v1"

/-- `TrellisClient.__init__`: read the three environment variables and
raise `ValueError` naming the first falsy one; otherwise the constructed
client holds the three values. -/
def TrellisClient.init (env : Env) : Except String TrellisClient :=
  if truthy env.TRELLIS_API_KEY = false then
    Except.error "TRELLIS_API_KEY environment variable is required"
  else if truthy env.TRELLIS_WORKFLOW_ID = false then
    Except.error "TRELLIS_WORKFLOW_ID environment variable is required"
  else if truthy env.TRELLIS_PROJECT_ID = false then
    Except.error "TRELLIS_PROJECT_ID environment variable is required"
  else
    Except.ok
      { api_key := env.TRELLIS_API_KEY.getD ""
        workflow_id := env.TRELLIS_WORKFLOW_ID.getD ""
        project_id := env.TRELLIS_PROJECT_ID.getD "" }

/-- Whether an `Except` carries a success value. -/
def exceptOk {ε α : Type} : Except ε α → Bool
  | Except.ok _ => true
  | Except.error _ => false

/-- `TrellisClient._get_headers`: the three default headers, with the raw
API key as the authorization value. -/
def TrellisClient.getHeaders (c : TrellisClient) : List (String × String) :=
  [("Authorization", c.api_key),
   ("Content-Type", "application/json"),
   ("API-Version", TrellisClient.API_VERSION)]

/-- The `**kwargs` accepted by `_request` and forwarded to
`requests.request`: optional custom headers, query parameters and JSON
body. -/
structure Kwargs where
  headers : Option (List (String × String)) := none
  params : Option (List (String × Json)) := none
  json : Option Json := none

/-- One HTTP call as handed to `requests.request`. -/
structure HttpRequest where
  method : String
  url : String
  headers : List (String × String)
  timeout : Nat
  params : Option (List (String × Json))
  body : Option Json

/-- What the network does with one call: a response (status, the parsed
JSON body when the text parses as JSON, and the raw text), a timeout
(`requests.exceptions.Timeout`), or another request failure
(`requests.exceptions.RequestException`, e.g. connection refused). -/
inductive HttpOutcome where
  | response (status : Nat) (jsonBody : Option Json) (text : String) : HttpOutcome
  | timeout : HttpOutcome
  | connError (cause : String) : HttpOutcome

/-- The best-effort error body attached to an HTTP status error: the
parsed JSON body when `e.response.json()` succeeds, otherwise the first
200 characters of `e.response.text`. -/
inductive ErrorDetail where
  | parsedJson (body : Json) : ErrorDetail
  | rawText (text : String) : ErrorDetail

/-- The error taxonomy of `_request`, one constructor per `except`
branch: `requests.exceptions.HTTPError` (raised by `raise_for_status`
for 4xx/5xx, reported with status and best-effort body),
`requests.exceptions.Timeout` (reported with the configured timeout),
and any other `requests.exceptions.RequestException`. -/
inductive RequestError where
  | httpStatus (status : Nat) (detail : ErrorDetail) : RequestError
  | timeout (seconds : Nat) : RequestError
  | requestFailed (cause : String) : RequestError

/-- Whether an error is the timeout kind. -/
def RequestError.isTimeout : RequestError → Bool
  | RequestError.timeout _ => true
  | _ => false

/-- Whether an error is the HTTP status kind. -/
def RequestError.isHttpStatus : RequestError → Bool
  | RequestError.httpStatus _ _ => true
  | _ => false

/-- The try/except body of `_request` applied to one outcome:
`response.raise_for_status()` raises exactly for statuses in [400, 600);
the handler reports the status with the parsed JSON error body when
parsing succeeds and the first 200 characters of the raw text otherwise;
a non-error response is returned as `response.json()` (a 2xx — or any
status below 400 — whose body is not JSON raises
`requests.exceptions.JSONDecodeError`, a `RequestException`); a timeout
is reported with the configured timeout; any other request failure is
passed through. -/
def processResponse (timeout : Nat) (o : HttpOutcome) : Except RequestError Json :=
  match o with
  | HttpOutcome.response status jsonBody text =>
    if 400 ≤ status ∧ status < 600 then
      Except.error (RequestError.httpStatus status
        (match jsonBody with
         | some j => ErrorDetail.parsedJson j
         | none => ErrorDetail.rawText (text.take 200)))
    else
      match jsonBody with
      | some j => Except.ok j
      | none => Except.error (RequestError.requestFailed "response body is not valid JSON")
  | HttpOutcome.timeout => Except.error (RequestError.timeout timeout)
  | HttpOutcome.connError cause => Except.error (RequestError.requestFailed cause)

/-- Request construction inside `_request`: URL by concatenating the base
URL and the endpoint path, default headers updated in place with the
caller's headers if any, with timeout, params and JSON body forwarded. -/
def TrellisClient.buildRequest (c : TrellisClient) (method endpoint : String)
    (timeout : Nat) (kwargs : Kwargs) : HttpRequest :=
  { method := method
    url := TrellisClient.BASE_URL ++ endpoint
    headers :=
      match kwargs.headers with
      | some custom => dictUpdate c.getHeaders custom
      | none => c.getHeaders
    timeout := timeout
    params := kwargs.params
    body := kwargs.json }

/-- The observable effect of one `_request` invocation: the HTTP calls it
issued and the value returned or error raised. -/
structure CallResult where
  issued : List HttpRequest
  result : Except RequestError Json

/-- `TrellisClient._request`: build the request, issue it once against
the network, and classify the outcome.  No branch issues a second
call. -/
def TrellisClient.request (c : TrellisClient) (method endpoint : String)
    (timeout : Nat) (kwargs : Kwargs) (net : HttpRequest → HttpOutcome) : CallResult :=
  let req := c.buildRequest method endpoint timeout kwargs
  { issued := [req], result := processResponse timeout (net req) }

/-- `TrellisClient.get_transformations`: GET `/transforms` with the
project id list and the include-parameters flag as query params. -/
def TrellisClient.get_transformations (c : TrellisClient)
    (net : HttpRequest → HttpOutcome) : CallResult :=
  c.request "GET" "/transforms" 30
    { params := some [("proj_ids", Json.arr [Json.str c.project_id]),
                      ("include_transform_params", Json.bool true)] } net

/-- `TrellisClient.get_transformation_operations`: GET
`/transforms/{transform_id}/operations`. -/
def TrellisClient.get_transformation_operations (c : TrellisClient)
    (transform_id : String) (net : HttpRequest → HttpOutcome) : CallResult :=
  c.request "GET" ("/transforms/" ++ transform_id ++ "/operations") 30 {} net

/-- `TrellisClient.get_entities`: GET `/entities` with the project id as
query param. -/
def TrellisClient.get_entities (c : TrellisClient)
    (net : HttpRequest → HttpOutcome) : CallResult :=
  c.request "GET" "/entities" 30
    { params := some [("project_id", Json.str c.project_id)] } net

/-- `TrellisClient.get_entity_fields`: GET `/entities/{entity_id}/fields`. -/
def TrellisClient.get_entity_fields (c : TrellisClient) (entity_id : String)
    (net : HttpRequest → HttpOutcome) : CallResult :=
  c.request "GET" ("/entities/" ++ entity_id ++ "/fields") 30 {} net

/-- `TrellisClient.get_workflow_config`: GET
`/workflows/{workflow_id}/config` with the configured workflow id. -/
def TrellisClient.get_workflow_config (c : TrellisClient)
    (net : HttpRequest → HttpOutcome) : CallResult :=
  c.request "GET" ("/workflows/" ++ c.workflow_id ++ "/config") 30 {} net

/-- `TrellisClient.update_workflow_blocks`: PATCH
`/workflows/{workflow_id}/blocks` with body `{"blocks": ...}`, adding the
`deleted_block_ids` key only when `if deleted_block_ids:` is truthy, i.e.
when the argument is a non-empty list (both `None` and `[]` are falsy). -/
def TrellisClient.update_workflow_blocks (c : TrellisClient) (blocks : List Json)
    (deleted_block_ids : Option (List String)) (net : HttpRequest → HttpOutcome) :
    CallResult :=
  let payload : Json :=
    match deleted_block_ids with
    | some (h :: t) =>
      Json.obj [("blocks", Json.arr blocks),
                ("deleted_block_ids", Json.arr ((h :: t).map Json.str))]
    | _ => Json.obj [("blocks", Json.arr blocks)]
  c.request "PATCH" ("/workflows/" ++ c.workflow_id ++ "/blocks") 30
    { json := some payload } net

namespace ServerTools

/-- Tool `get_transformations` in `server.py`: call the client method in
a try block, return its result, re-raise its error. -/
def get_transformations (c : TrellisClient) (net : HttpRequest → HttpOutcome) :
    Except RequestError Json :=
  match (TrellisClient.get_transformations c net).result with
  | Except.ok result => Except.ok result
  | Except.error e => Except.error e

/-- Tool `get_transformation_details`: wraps
`client.get_transformation_operations`. -/
def get_transformation_details (c : TrellisClient) (transform_id : String)
    (net : HttpRequest → HttpOutcome) : Except RequestError Json :=
  match (TrellisClient.get_transformation_operations c transform_id net).result with
  | Except.ok result => Except.ok result
  | Except.error e => Except.error e

/-- Tool `get_entities`: wraps `client.get_entities`. -/
def get_entities (c : TrellisClient) (net : HttpRequest → HttpOutcome) :
    Except RequestError Json :=
  match (TrellisClient.get_entities c net).result with
  | Except.ok result => Except.ok result
  | Except.error e => Except.error e

/-- Tool `get_entity_fields`: wraps `client.get_entity_fields`. -/
def get_entity_fields (c : TrellisClient) (entity_id : String)
    (net : HttpRequest → HttpOutcome) : Except RequestError Json :=
  match (TrellisClient.get_entity_fields c entity_id net).result with
  | Except.ok result => Except.ok result
  | Except.error e => Except.error e

/-- Tool `get_workflow_config`: wraps `client.get_workflow_config`. -/
def get_workflow_config (c : TrellisClient) (net : HttpRequest → HttpOutcome) :
    Except RequestError Json :=
  match (TrellisClient.get_workflow_config c net).result with
  | Except.ok result => Except.ok result
  | Except.error e => Except.error e

/-- Tool `update_workflow_blocks`: wraps `client.update_workflow_blocks`. -/
def update_workflow_blocks (c : TrellisClient) (blocks : List Json)
    (deleted_block_ids : Option (List String)) (net : HttpRequest → HttpOutcome) :
    Except RequestError Json :=
  match (TrellisClient.update_workflow_blocks c blocks deleted_block_ids net).result with
  | Except.ok result => Except.ok result
  | Except.error e => Except.error e

end ServerTools

/-- Reraising in an except handler is the identity on outcomes. -/
theorem except_match_id (r : Except RequestError Json) :
    (match r with
     | Except.ok v => Except.ok v
     | Except.error e => (Except.error e : Except RequestError Json)) = r := by
  cases r <;> rfl

/-- Setting a key makes that key read back the new value. -/
theorem getVal_setKey_same (d : List (String × String)) (k v : String) :
    getVal (setKey d k v) k = some v := by
  induction d with
  | nil => simp [setKey, getVal]
  | cons p rest ih =>
    obtain ⟨k', v'⟩ := p
    by_cases h : k' = k
    · simp [setKey, getVal, h]
    · simp [setKey, getVal, h, ih]

/-- Setting a key leaves every other key's value unchanged. -/
theorem getVal_setKey_other (d : List (String × String)) (k v k' : String)
    (h : k' ≠ k) : getVal (setKey d k v) k' = getVal d k' := by
  have hne : ¬k = k' := fun e => h e.symm
  induction d with
  | nil => simp [setKey, getVal, hne]
  | cons p rest ih =>
    obtain ⟨k'', v''⟩ := p
    by_cases h2 : k'' = k
    · subst h2
      simp [setKey, getVal, hne]
    · simp [setKey, getVal, h2, ih]

/-- Reading a key after a dict update: the caller's surviving binding
wins when present, otherwise the original value survives. -/
theorem getVal_dictUpdate (e : List (String × String)) :
    ∀ (d : List (String × String)) (k : String),
      getVal (dictUpdate d e) k =
        match getValLast e k with
        | some v => some v
        | none => getVal d k := by
  induction e with
  | nil => intro d k; simp [dictUpdate, getValLast]
  | cons p rest ih =>
    intro d k
    obtain ⟨k', v⟩ := p
    have step : getVal (dictUpdate d ((k', v) :: rest)) k =
        getVal (dictUpdate (setKey d k' v) rest) k := rfl
    rw [step, ih (setKey d k' v) k]
    cases hrest : getValLast rest k with
    | some v' => simp [getValLast, hrest]
    | none =>
      by_cases hk : k' = k
      · subst hk
        simp [getValLast, hrest, getVal_setKey_same]
      · simp [getValLast, hrest, hk, getVal_setKey_other d k' v k (fun e2 => hk e2.symm)]

/-- First-match and last-match lookup agree on key membership. -/
theorem getValLast_isSome (e : List (String × String)) (k : String) :
    (getValLast e k).isSome = (getVal e k).isSome := by
  induction e with
  | nil => rfl
  | cons p rest ih =>
    obtain ⟨k', v⟩ := p
    cases hrest : getValLast rest k with
    | some v' =>
      have hv : (getVal rest k).isSome = true := by rw [← ih, hrest]; rfl
      by_cases hk : k' = k <;> simp [getValLast, getVal, hrest, hk, hv]
    | none =>
      have hv : (getVal rest k).isSome = false := by rw [← ih, hrest]; rfl
      by_cases hk : k' = k <;> simp [getValLast, getVal, hrest, hk, hv]

/-- C2: `update_workflow_blocks` sends a body whose only key is
`"blocks"` when `deleted_block_ids` is `None` or the empty list, and a
body with exactly the keys `"blocks"` and `"deleted_block_ids"` — the
latter bound to the given list unchanged — when the list is
non-empty. -/
theorem claim_C2 : ∀ (c : TrellisClient) (blocks : List Json)
    (net : HttpRequest → HttpOutcome),
    ((TrellisClient.update_workflow_blocks c blocks none net).issued.map
        fun r => r.body) = [some (Json.obj [("blocks", Json.arr blocks)])] ∧
    ((TrellisClient.update_workflow_blocks c blocks (some []) net).issued.map
        fun r => r.body) = [some (Json.obj [("blocks", Json.arr blocks)])] ∧
    (∀ ids : List String, ids ≠ [] →
      ((TrellisClient.update_workflow_blocks c blocks (some ids) net).issued.map
          fun r => r.body) =
        [some (Json.obj [("blocks", Json.arr blocks),
                         ("deleted_block_ids", Json.arr (ids.map Json.str))])]) := by
  intro c blocks net
  refine ⟨rfl, rfl, ?_⟩
  intro ids h
  cases ids with
  | nil => exact absurd rfl h
  | cons x xs => rfl

/-- C2 witness: concrete instances with no deletions and with deletions
`["a", "b"]`. -/
theorem claim_C2_witness :
    ((TrellisClient.update_workflow_blocks ⟨"k", "wf", "pr"⟩ [Json.obj []] none
        (fun _ => HttpOutcome.timeout)).issued.map fun r => r.body) =
      [some (Json.obj [("blocks", Json.arr [Json.obj []])])] ∧
    (["a", "b"] : List String) ≠ [] ∧
    ((TrellisClient.update_workflow_blocks ⟨"k", "wf", "pr"⟩ [Json.obj []]
        (some ["a", "b"]) (fun _ => HttpOutcome.timeout)).issued.map fun r => r.body) =
      [some (Json.obj [("blocks", Json.arr [Json.obj []]),
                       ("deleted_block_ids", Json.arr [Json.str "a", Json.str "b"])])] :=
  ⟨(claim_C2 ⟨"k", "wf", "pr"⟩ [Json.obj []] (fun _ => HttpOutcome.timeout)).1,
   by decide,
   (claim_C2 ⟨"k", "wf", "pr"⟩ [Json.obj []] (fun _ => HttpOutcome.timeout)).2.2
     ["a", "b"] (by decide)⟩

/-- C6: every tool returns the underlying client method's success value
unchanged and re-raises the underlying error identically. -/
theorem claim_C6 : ∀ (c : TrellisClient) (tid eid : String) (blocks : List Json)
    (dbi : Option (List String)) (net : HttpRequest → HttpOutcome),
    ServerTools.get_transformations c net =
      (TrellisClient.get_transformations c net).result ∧
    ServerTools.get_transformation_details c tid net =
      (TrellisClient.get_transformation_operations c tid net).result ∧
    ServerTools.get_entities c net = (TrellisClient.get_entities c net).result ∧
    ServerTools.get_entity_fields c eid net =
      (TrellisClient.get_entity_fields c eid net).result ∧
    ServerTools.get_workflow_config c net =
      (TrellisClient.get_workflow_config c net).result ∧
    ServerTools.update_workflow_blocks c blocks dbi net =
      (TrellisClient.update_workflow_blocks c blocks dbi net).result :=
  fun c tid eid blocks dbi net =>
    ⟨except_match_id _, except_match_id _, except_match_id _,
     except_match_id _, except_match_id _, except_match_id _⟩

/-- C9: every invocation of the request primitive issues exactly one
HTTP call, whatever the network outcome is. -/
theorem claim_C9 : ∀ (c : TrellisClient) (method endpoint : String) (timeout : Nat)
    (kwargs : Kwargs) (net : HttpRequest → HttpOutcome),
    (TrellisClient.request c method endpoint timeout kwargs net).issued.length = 1 :=
  fun _ _ _ _ _ _ => rfl

/-- C7: each endpoint method issues the documented HTTP method, URL
(base URL concatenated with the path, path parameters substituted
verbatim) and query/body shape. -/
theorem claim_C7 : ∀ (c : TrellisClient) (tid eid : String)
    (net : HttpRequest → HttpOutcome),
    ((TrellisClient.get_transformations c net).issued.map
        fun r => (r.method, r.url, r.params, r.body)) =
      [("GET", TrellisClient.BASE_URL ++ "/transforms",
        some [("proj_ids", Json.arr [Json.str c.project_id]),
              ("include_transform_params", Json.bool true)], none)] ∧
    ((TrellisClient.get_transformation_operations c tid net).issued.map
        fun r => (r.method, r.url, r.params, r.body)) =
      [("GET", TrellisClient.BASE_URL ++ ("/transforms/" ++ tid ++ "/operations"),
        none, none)] ∧
    ((TrellisClient.get_entities c net).issued.map
        fun r => (r.method, r.url, r.params, r.body)) =
      [("GET", TrellisClient.BASE_URL ++ "/entities",
        some [("project_id", Json.str c.project_id)], none)] ∧
    ((TrellisClient.get_entity_fields c eid net).issued.map
        fun r => (r.method, r.url, r.params, r.body)) =
      [("GET", TrellisClient.BASE_URL ++ ("/entities/" ++ eid ++ "/fields"),
        none, none)] ∧
    ((TrellisClient.get_workflow_config c net).issued.map
        fun r => (r.method, r.url, r.params, r.body)) =
      [("GET", TrellisClient.BASE_URL ++ ("/workflows/" ++ c.workflow_id ++ "/config"),
        none, none)] ∧
    (∀ blocks dbi,
      ((TrellisClient.update_workflow_blocks c blocks dbi net).issued.map
          fun r => (r.method, r.url)) =
        [("PATCH", TrellisClient.BASE_URL ++ ("/workflows/" ++ c.workflow_id ++ "/blocks"))]) :=
  fun c tid eid net => ⟨rfl, rfl, rfl, rfl, rfl, fun blocks dbi => rfl⟩

/-- A dict update leaves a key's value untouched when the update does not
mention the key. -/
theorem getVal_dictUpdate_default (d e : List (String × String)) (k : String)
    (h : hasKey e k = false) : getVal (dictUpdate d e) k = getVal d k := by
  have hs : (getValLast e k).isSome = false := by
    rw [getValLast_isSome]; exact h
  have hn : getValLast e k = none := by
    cases hl : getValLast e k with
    | none => rfl
    | some v => rw [hl] at hs; cases hs
  rw [getVal_dictUpdate, hn]

/-- A dict update keeps every key the update mentions present. -/
theorem getVal_dictUpdate_present (d e : List (String × String)) (k : String)
    (h : hasKey e k = true) : (getVal (dictUpdate d e) k).isSome = true := by
  have hs : (getValLast e k).isSome = true := by
    rw [getValLast_isSome]; exact h
  rw [getVal_dictUpdate]
  cases hl : getValLast e k with
  | some v => simp
  | none => rw [hl] at hs; cases hs

/-- After a dict update, a key the update binds reads back the update's
surviving (last) value. -/
theorem getVal_dictUpdate_last (d e : List (String × String)) (k v : String)
    (h : getValLast e k = some v) : getVal (dictUpdate d e) k = some v := by
  rw [getVal_dictUpdate, h]

/-- C1 counterexample: a response with the non-2xx status 304 and a JSON
body makes the request primitive return the parsed body successfully —
`raise_for_status` raises only for statuses in [400, 600), so no error
carrying the status is raised. -/
theorem claim_C1_counterexample :
    ¬(200 ≤ 304 ∧ 304 < 300) ∧
    (TrellisClient.request ⟨"k", "wf", "pr"⟩ "GET" "/entities" 30 {}
        (fun _ => HttpOutcome.response 304 (some (Json.obj [])) "")).result =
      Except.ok (Json.obj []) :=
  ⟨by decide, rfl⟩

/-- C1 (amended): for every request whose response has a 4xx or 5xx
status, the operation raises an error carrying the status code and, when
the response body parses as JSON, the parsed body, otherwise the first
200 characters of the raw body. -/
theorem claim_C1 : ∀ (c : TrellisClient) (method endpoint : String) (timeout : Nat)
    (kwargs : Kwargs) (net : HttpRequest → HttpOutcome) (status : Nat)
    (jsonBody : Option Json) (text : String),
    net (TrellisClient.buildRequest c method endpoint timeout kwargs) =
      HttpOutcome.response status jsonBody text →
    400 ≤ status → status < 600 →
    (TrellisClient.request c method endpoint timeout kwargs net).result =
      Except.error (RequestError.httpStatus status
        (match jsonBody with
         | some j => ErrorDetail.parsedJson j
         | none => ErrorDetail.rawText (text.take 200))) := by
  intro c method endpoint timeout kwargs net status jsonBody text hnet h4 h6
  have hres : (TrellisClient.request c method endpoint timeout kwargs net).result =
      processResponse timeout
        (net (TrellisClient.buildRequest c method endpoint timeout kwargs)) := rfl
  rw [hres, hnet]
  simp only [processResponse]
  rw [if_pos ⟨h4, h6⟩]

/-- C1 witness: a 422 response with JSON body produces the HTTP status
error with status 422 and the parsed body. -/
theorem claim_C1_witness :
    400 ≤ 422 ∧ 422 < 600 ∧
    (TrellisClient.request ⟨"k", "wf", "pr"⟩ "GET" "/entities" 30 {}
        (fun _ => HttpOutcome.response 422
          (some (Json.obj [("error", Json.str "bad field")])) "x")).result =
      Except.error (RequestError.httpStatus 422
        (ErrorDetail.parsedJson (Json.obj [("error", Json.str "bad field")]))) :=
  ⟨by decide, by decide,
   claim_C1 ⟨"k", "wf", "pr"⟩ "GET" "/entities" 30 {}
     (fun _ => HttpOutcome.response 422
       (some (Json.obj [("error", Json.str "bad field")])) "x")
     422 (some (Json.obj [("error", Json.str "bad field")])) "x"
     rfl (by decide) (by decide)⟩

/-- C3: construction succeeds exactly when all three required settings
are present and non-empty, and every construction error names a setting
that is in fact missing or empty. -/
theorem claim_C3 : ∀ env : Env,
    exceptOk (TrellisClient.init env) =
      (truthy env.TRELLIS_API_KEY && truthy env.TRELLIS_WORKFLOW_ID &&
        truthy env.TRELLIS_PROJECT_ID) ∧
    (∀ msg, TrellisClient.init env = Except.error msg →
      (msg = "TRELLIS_API_KEY environment variable is required" ∧
        truthy env.TRELLIS_API_KEY = false) ∨
      (msg = "TRELLIS_WORKFLOW_ID environment variable is required" ∧
        truthy env.TRELLIS_WORKFLOW_ID = false) ∨
      (msg = "TRELLIS_PROJECT_ID environment variable is required" ∧
        truthy env.TRELLIS_PROJECT_ID = false)) := by
  intro env
  cases h1 : truthy env.TRELLIS_API_KEY <;>
    cases h2 : truthy env.TRELLIS_WORKFLOW_ID <;>
      cases h3 : truthy env.TRELLIS_PROJECT_ID <;>
        simp [TrellisClient.init, exceptOk, h1, h2, h3]

/-- C3 witness: with the workflow id absent and the other two settings
set, construction fails and the error names the workflow id setting. -/
theorem claim_C3_witness :
    exceptOk (TrellisClient.init ⟨some "k", none, some "p"⟩) =
      (truthy (some "k") && truthy (none : Option String) && truthy (some "p")) ∧
    (("TRELLIS_WORKFLOW_ID environment variable is required" =
        "TRELLIS_API_KEY environment variable is required" ∧
      truthy (some "k") = false) ∨
     ("TRELLIS_WORKFLOW_ID environment variable is required" =
        "TRELLIS_WORKFLOW_ID environment variable is required" ∧
      truthy (none : Option String) = false) ∨
     ("TRELLIS_WORKFLOW_ID environment variable is required" =
        "TRELLIS_PROJECT_ID environment variable is required" ∧
      truthy (some "p") = false)) :=
  ⟨(claim_C3 ⟨some "k", none, some "p"⟩).1,
   (claim_C3 ⟨some "k", none, some "p"⟩).2
     "TRELLIS_WORKFLOW_ID environment variable is required" rfl⟩

/-- C4: a timed-out request produces the timeout error kind carrying the
configured timeout value, and that kind is distinct from the HTTP status
error kind. -/
theorem claim_C4 : ∀ (c : TrellisClient) (method endpoint : String) (timeout : Nat)
    (kwargs : Kwargs) (net : HttpRequest → HttpOutcome),
    net (TrellisClient.buildRequest c method endpoint timeout kwargs) =
      HttpOutcome.timeout →
    (TrellisClient.request c method endpoint timeout kwargs net).result =
      Except.error (RequestError.timeout timeout) ∧
    RequestError.isTimeout (RequestError.timeout timeout) = true ∧
    RequestError.isHttpStatus (RequestError.timeout timeout) = false := by
  intro c method endpoint timeout kwargs net hnet
  refine ⟨?_, rfl, rfl⟩
  have hres : (TrellisClient.request c method endpoint timeout kwargs net).result =
      processResponse timeout
        (net (TrellisClient.buildRequest c method endpoint timeout kwargs)) := rfl
  rw [hres, hnet]
  rfl

/-- C4 witness: a concrete request against a network that times out. -/
theorem claim_C4_witness :
    (TrellisClient.request ⟨"k", "wf", "pr"⟩ "GET" "/transforms" 30 {}
        (fun _ => HttpOutcome.timeout)).result =
      Except.error (RequestError.timeout 30) ∧
    RequestError.isTimeout (RequestError.timeout 30) = true ∧
    RequestError.isHttpStatus (RequestError.timeout 30) = false :=
  claim_C4 ⟨"k", "wf", "pr"⟩ "GET" "/transforms" 30 {} (fun _ => HttpOutcome.timeout) rfl

/-- C5: the default headers bind the raw API key, the JSON content type
and the fixed API version "2025-03"; every request carries them except
where the caller supplies a header of the same name, and caller-supplied
headers are never dropped from the merged set. -/
theorem claim_C5 : ∀ (c : TrellisClient) (method endpoint : String) (timeout : Nat)
    (kwargs : Kwargs),
    (getVal c.getHeaders "Authorization" = some c.api_key ∧
     getVal c.getHeaders "Content-Type" = some "application/json" ∧
     getVal c.getHeaders "API-Version" = some "2025-03") ∧
    (kwargs.headers = none →
      (TrellisClient.buildRequest c method endpoint timeout kwargs).headers =
        c.getHeaders) ∧
    (∀ e, kwargs.headers = some e →
      (hasKey e "Authorization" = false →
        getVal (TrellisClient.buildRequest c method endpoint timeout kwargs).headers
          "Authorization" = some c.api_key) ∧
      (hasKey e "Content-Type" = false →
        getVal (TrellisClient.buildRequest c method endpoint timeout kwargs).headers
          "Content-Type" = some "application/json") ∧
      (hasKey e "API-Version" = false →
        getVal (TrellisClient.buildRequest c method endpoint timeout kwargs).headers
          "API-Version" = some "2025-03") ∧
      (∀ k, hasKey e k = true →
        (getVal (TrellisClient.buildRequest c method endpoint timeout kwargs).headers
          k).isSome = true)) := by
  intro c method endpoint timeout kwargs
  refine ⟨⟨rfl, rfl, rfl⟩, ?_, ?_⟩
  · intro h
    simp [TrellisClient.buildRequest, h]
  · intro e he
    have hh : (TrellisClient.buildRequest c method endpoint timeout kwargs).headers =
        dictUpdate c.getHeaders e := by
      simp [TrellisClient.buildRequest, he]
    refine ⟨?_, ?_, ?_, ?_⟩
    · intro hk
      rw [hh, getVal_dictUpdate_default _ _ _ hk]
      rfl
    · intro hk
      rw [hh, getVal_dictUpdate_default _ _ _ hk]
      rfl
    · intro hk
      rw [hh, getVal_dictUpdate_default _ _ _ hk]
      rfl
    · intro k hk
      rw [hh]
      exact getVal_dictUpdate_present _ _ _ hk

/-- C5 witness: with one extra caller header and no overrides, the three
defaults are present with their default values and the extra header is
kept. -/
theorem claim_C5_witness :
    hasKey [("X-Extra", "1")] "Authorization" = false ∧
    hasKey [("X-Extra", "1")] "API-Version" = false ∧
    hasKey [("X-Extra", "1")] "X-Extra" = true ∧
    getVal (TrellisClient.buildRequest ⟨"k", "wf", "pr"⟩ "GET" "/entities" 30
        { headers := some [("X-Extra", "1")] }).headers "Authorization" = some "k" ∧
    getVal (TrellisClient.buildRequest ⟨"k", "wf", "pr"⟩ "GET" "/entities" 30
        { headers := some [("X-Extra", "1")] }).headers "API-Version" = some "2025-03" ∧
    (getVal (TrellisClient.buildRequest ⟨"k", "wf", "pr"⟩ "GET" "/entities" 30
        { headers := some [("X-Extra", "1")] }).headers "X-Extra").isSome = true :=
  have h := (claim_C5 ⟨"k", "wf", "pr"⟩ "GET" "/entities" 30
    { headers := some [("X-Extra", "1")] }).2.2 [("X-Extra", "1")] rfl
  ⟨rfl, rfl, rfl, h.1 rfl, h.2.2.1 rfl, h.2.2.2 "X-Extra" rfl⟩

/-- C8: a 2xx response whose body is JSON makes the request primitive —
and in particular `get_workflow_config` — return the full parsed body
unmodified, envelope included. -/
theorem claim_C8 :
    (∀ (c : TrellisClient) (method endpoint : String) (timeout : Nat) (kwargs : Kwargs)
      (net : HttpRequest → HttpOutcome) (status : Nat) (body : Json) (text : String),
      net (TrellisClient.buildRequest c method endpoint timeout kwargs) =
        HttpOutcome.response status (some body) text →
      200 ≤ status → status < 300 →
      (TrellisClient.request c method endpoint timeout kwargs net).result =
        Except.ok body) ∧
    (∀ (c : TrellisClient) (net : HttpRequest → HttpOutcome) (status : Nat)
      (body : Json) (text : String),
      net (TrellisClient.buildRequest c "GET"
          ("/workflows/" ++ c.workflow_id ++ "/config") 30 {}) =
        HttpOutcome.response status (some body) text →
      200 ≤ status → status < 300 →
      (TrellisClient.get_workflow_config c net).result = Except.ok body) := by
  have main : ∀ (c : TrellisClient) (method endpoint : String) (timeout : Nat)
      (kwargs : Kwargs) (net : HttpRequest → HttpOutcome) (status : Nat) (body : Json)
      (text : String),
      net (TrellisClient.buildRequest c method endpoint timeout kwargs) =
        HttpOutcome.response status (some body) text →
      200 ≤ status → status < 300 →
      (TrellisClient.request c method endpoint timeout kwargs net).result =
        Except.ok body := by
    intro c method endpoint timeout kwargs net status body text hnet h2 h3
    have hcond : ¬(400 ≤ status ∧ status < 600) := by omega
    have hres : (TrellisClient.request c method endpoint timeout kwargs net).result =
        processResponse timeout
          (net (TrellisClient.buildRequest c method endpoint timeout kwargs)) := rfl
    rw [hres, hnet]
    simp only [processResponse]
    rw [if_neg hcond]
  exact ⟨main, fun c net status body text hnet h2 h3 =>
    main c "GET" ("/workflows/" ++ c.workflow_id ++ "/config") 30 {} net status body
      text hnet h2 h3⟩

/-- C8 witness: a 200 response with a data-enveloped body is returned by
`get_workflow_config` unmodified. -/
theorem claim_C8_witness :
    200 ≤ 200 ∧ 200 < 300 ∧
    (TrellisClient.get_workflow_config ⟨"k", "wf_1", "pr"⟩
        (fun _ => HttpOutcome.response 200
          (some (Json.obj [("data", Json.obj [("id", Json.str "wf_1"),
            ("nodes", Json.arr [])])])) "")).result =
      Except.ok (Json.obj [("data", Json.obj [("id", Json.str "wf_1"),
        ("nodes", Json.arr [])])]) :=
  ⟨by decide, by decide,
   claim_C8.2 ⟨"k", "wf_1", "pr"⟩
     (fun _ => HttpOutcome.response 200
       (some (Json.obj [("data", Json.obj [("id", Json.str "wf_1"),
         ("nodes", Json.arr [])])])) "")
     200 (Json.obj [("data", Json.obj [("id", Json.str "wf_1"),
       ("nodes", Json.arr [])])]) "" rfl (by decide) (by decide)⟩

/-- C10: when the caller supplies a header with the same name as a
default, the caller's (surviving) value wins in the merged header set:
defaults are built first and then overwritten by the caller's headers. -/
theorem claim_C10 : ∀ (c : TrellisClient) (method endpoint : String) (timeout : Nat)
    (kwargs : Kwargs) (e : List (String × String)) (k v : String),
    kwargs.headers = some e →
    getValLast e k = some v →
    getVal (TrellisClient.buildRequest c method endpoint timeout kwargs).headers k =
      some v := by
  intro c method endpoint timeout kwargs e k v he hl
  have hh : (TrellisClient.buildRequest c method endpoint timeout kwargs).headers =
      dictUpdate c.getHeaders e := by
    simp [TrellisClient.buildRequest, he]
  rw [hh]
  exact getVal_dictUpdate_last _ _ _ _ hl

/-- C10 witness: a caller-supplied authorization header overrides the
default one in the merged header set. -/
theorem claim_C10_witness :
    (Kwargs.mk (some [("Authorization", "Bearer zz")]) none none).headers =
      some [("Authorization", "Bearer zz")] ∧
    getValLast [("Authorization", "Bearer zz")] "Authorization" = some "Bearer zz" ∧
    getVal (TrellisClient.buildRequest ⟨"k", "wf", "pr"⟩ "GET" "/entities" 30
        (Kwargs.mk (some [("Authorization", "Bearer zz")]) none none)).headers
      "Authorization" = some "Bearer zz" :=
  ⟨rfl, rfl,
   claim_C10 ⟨"k", "wf", "pr"⟩ "GET" "/entities" 30
     (Kwargs.mk (some [("Authorization", "Bearer zz")]) none none)
     [("Authorization", "Bearer zz")] "Authorization" "Bearer zz" rfl rfl⟩
